import Mathlib

/-!
Verification of the proximity-driven interaction and highlighting engine of the
3D scene viewer: the registry of placed objects, the per-frame proximity check
(checkObjectProximity in the first-person viewer, checkProximity in the garden
page), scene clearing (clearScene), and the asset loader callbacks (loadObject).

Positions are modelled with rational coordinates.  The source compares Euclidean
distances (camera.position.distanceTo) with < against each other and against the
positive constant INTERACTION_DISTANCE; squaring is strictly monotone on
nonnegative reals, so the embedding performs the same comparisons on squared
distances against the squared threshold, which keeps every branch decision
exactly the one the source takes on real-number semantics.

Object identity: the source compares objects by JavaScript reference
(closestObject !== highlightedObject).  Each placed object here carries a
numeric id standing for its reference; distinct live objects have distinct ids.
-/

/-- A 3D position, mirroring the x, y, z fields of THREE.Vector3. -/
structure Vec3 where
  x : ℚ
  y : ℚ
  z : ℚ
  deriving DecidableEq, Repr

/-- Squared Euclidean distance between two points.  The source computes the
Euclidean distance and only ever compares it with < against another distance or
against the positive threshold, so comparing squares is an exact embedding. -/
def distSq (a b : Vec3) : ℚ :=
  (a.x - b.x) * (a.x - b.x) + (a.y - b.y) * (a.y - b.y) + (a.z - b.z) * (a.z - b.z)

/-- Distance threshold for interaction, from
const INTERACTION_DISTANCE = 2 in both viewer variants. -/
def INTERACTION_DISTANCE : ℚ := 2

/-- A loaded scene entity as seen by the interaction engine: its reference
(id), its model-type tag (userData.type, the asset folder name in the viewer,
the string story_sphere in the garden), its world position, whether its meshes
currently carry the highlight material rather than the stored original
materials, and, for garden spheres, the story text stored in userData.content. -/
structure PlacedObject where
  id : Nat
  type : String
  pos : Vec3
  highlighted : Bool
  content : String
  deriving DecidableEq, Repr

/-- The module-level mutable state the proximity code reads and writes:
the objects array (registry, in insertion order), the highlightedObject
variable (by id, none for null), and the object-overlay DOM state (visibility
of the object-overlay element and text of object-description). -/
structure EngineState where
  objects : List PlacedObject
  highlighted : Option Nat
  overlayVisible : Bool
  overlayText : String
  deriving DecidableEq, Repr

/-- The observable side effects a proximity tick can emit: restoring an
object's original materials and hiding the overlay (the leave branch), and
applying the highlight material and showing the overlay (the enter branch). -/
inductive Effect where
  | restoreMaterials (id : Nat)
  | hideOverlay
  | applyHighlight (id : Nat)
  | showOverlay (text : String)
  deriving DecidableEq, Repr

/-- The fixed allow-list of interactive type tags from checkObjectProximity. -/
def interactiveTypes : List String :=
  ["gift_box_with_a_ribbons", "mirror", "modern_side_lamp_and_stand",
   "radio_broadcaster", "telephone", "coffee_table"]

/-- The keys of the objectDescriptions table.  The values are long narrative
strings whose content no control flow depends on; they are represented by a
stand-in derived from the key (descriptionFor). -/
def descriptionKeys : List String :=
  ["gift_box_with_a_ribbons", "mirror", "modern_side_lamp_and_stand",
   "radio_broadcaster", "telephone"]

/-- Stand-in for the narrative text stored under a key of objectDescriptions. -/
def descriptionFor (k : String) : String := "story for " ++ k

/-- Lookup in objectDescriptions: some text for the five keys present in the
table, none for every other type tag (a JavaScript property miss yields
undefined). -/
def lookupDescription (t : String) : Option String :=
  if descriptionKeys.contains t then some (descriptionFor t) else none

/-- Marks whether an object passes the interactive filter of
checkObjectProximity (Array.prototype.includes on the allow-list). -/
def isInteractive (o : PlacedObject) : Bool :=
  interactiveTypes.contains o.type

/-- The filter at the top of checkObjectProximity: objects whose userData.type
is in the allow-list, in registry order. -/
def interactiveObjects (objs : List PlacedObject) : List PlacedObject :=
  objs.filter isInteractive

/-- An object is strictly within the interaction radius of the viewpoint: the
source condition distance < INTERACTION_DISTANCE, stated on squares. -/
def inRange (V : Vec3) (o : PlacedObject) : Prop :=
  distSq V o.pos < INTERACTION_DISTANCE * INTERACTION_DISTANCE

instance (V : Vec3) (o : PlacedObject) : Decidable (inRange V o) := by
  unfold inRange; infer_instance

/-- One step of the forEach scan in checkObjectProximity / checkProximity.
The accumulator is none while closestObject is null (closestDistance Infinity,
so the comparison distance < closestDistance is vacuously true), and otherwise
holds the current closestObject together with closestDistance.  The source
condition is distance < INTERACTION_DISTANCE && distance < closestDistance,
with both comparisons strict. -/
def scanStep (V : Vec3) (acc : Option (PlacedObject × ℚ)) (o : PlacedObject) :
    Option (PlacedObject × ℚ) :=
  match acc with
  | none =>
      if inRange V o then some (o, distSq V o.pos) else none
  | some (c, cd) =>
      if inRange V o ∧ distSq V o.pos < cd then some (o, distSq V o.pos)
      else some (c, cd)

/-- The whole forEach scan: fold scanStep over the candidate list starting from
closestObject = null. -/
def scanClosest (V : Vec3) (l : List PlacedObject) : Option (PlacedObject × ℚ) :=
  l.foldl (scanStep V) none

/-- The closestObject computed by checkObjectProximity for a registry and a
viewpoint: scan the interactive objects. -/
def selectedObject (objs : List PlacedObject) (V : Vec3) : Option PlacedObject :=
  (scanClosest V (interactiveObjects objs)).map Prod.fst

/-- The closestSphere computed by checkProximity in the garden page: scan every
sphere, there is no interactive filter there. -/
def selectedSphere (objs : List PlacedObject) (V : Vec3) : Option PlacedObject :=
  (scanClosest V objs).map Prod.fst

/-- Pointwise update used to model a material swap on the object with the given
reference: the registry entry with that id gets its highlighted flag set. -/
def appUpd (i : Nat) (b : Bool) (o : PlacedObject) : PlacedObject :=
  if o.id = i then { o with highlighted := b } else o

/-- Swap the materials of the object with reference i in the registry. -/
def setAppearance (objs : List PlacedObject) (i : Nat) (b : Bool) : List PlacedObject :=
  objs.map (appUpd i b)

/-- The leave branch of the transition: if there was a highlightedObject,
restore its original materials and add the hidden class to the overlay. -/
def leaveStep (s : EngineState) : EngineState × List Effect :=
  match s.highlighted with
  | none => (s, [])
  | some h =>
      ({ s with objects := setAppearance s.objects h false, overlayVisible := false },
       [Effect.restoreMaterials h, Effect.hideOverlay])

/-- The enter branch of the transition: if a closest object was found, apply
the highlight material to it, set the overlay text and remove the hidden
class. -/
def enterStep (s : EngineState) (closest : Option PlacedObject)
    (textOf : PlacedObject → String) : EngineState × List Effect :=
  match closest with
  | none => (s, [])
  | some o =>
      ({ s with objects := setAppearance s.objects o.id true,
                overlayVisible := true, overlayText := textOf o },
       [Effect.applyHighlight o.id, Effect.showOverlay (textOf o)])

/-- The edge-triggered transition shared by checkObjectProximity and
checkProximity: if closestObject !== highlightedObject, run the leave branch,
then the enter branch, then store the new highlightedObject; otherwise do
nothing. -/
def applyTransition (s : EngineState) (closest : Option PlacedObject)
    (textOf : PlacedObject → String) : EngineState × List Effect :=
  if closest.map PlacedObject.id = s.highlighted then (s, [])
  else
    let l := leaveStep s
    let e := enterStep l.1 closest textOf
    ({ e.1 with highlighted := closest.map PlacedObject.id }, l.2 ++ e.2)

/-- checkObjectProximity from the first-person viewer: filter to interactive
objects, scan for the closest strictly in-range one, and run the transition.
The overlay text for an entered object is objectDescriptions[type]; when the
key is missing the lookup yields undefined and assigning undefined to
textContent stores the empty string (WebIDL treats it as null, and textContent
maps null to the empty string), which getD the empty string embeds. -/
def checkObjectProximity (s : EngineState) (V : Vec3) : EngineState × List Effect :=
  applyTransition s (selectedObject s.objects V)
    (fun o => (lookupDescription o.type).getD "")

/-- checkProximity from the garden page: scan every sphere (no filter) and run
the same transition; the overlay text is the sphere's stored story content. -/
def checkProximity (s : EngineState) (V : Vec3) : EngineState × List Effect :=
  applyTransition s (selectedSphere s.objects V) (fun o => o.content)

/-- clearScene: remove every object from the scene graph and replace the
objects array with an empty one.  The body touches neither highlightedObject
nor the overlay and emits no effect. -/
def clearScene (s : EngineState) : EngineState × List Effect :=
  ({ s with objects := [] }, [])

/-- Appending a fully constructed object to the registry, as the tail of the
success callback of loader.load does (scene.add then objects.push). -/
def registerObject (m : PlacedObject) (s : EngineState) : EngineState :=
  { s with objects := s.objects ++ [m] }

/-- Outcome delivered to the callbacks of loader.load: the success callback
receives the constructed model (scaling and placement are the model loader's
business and are already folded into the PlacedObject), the error callback
receives the error. -/
inductive LoadResult where
  | ok (model : PlacedObject)
  | error (msg : String)

/-- The pair of callbacks the source passes to loader.load in loadObject: on
success the constructed model is added to the scene and pushed onto the
registry; on error the handler only calls console.error and touches no state. -/
def loadObjectCallback (s : EngineState) (r : LoadResult) : EngineState :=
  match r with
  | .ok m => registerObject m s
  | .error _ => s

/-- The state at page load: empty registry, highlightedObject = null, overlay
hidden with empty text. -/
def initState : EngineState :=
  { objects := [], highlighted := none, overlayVisible := false, overlayText := "" }

/-- Number of registry entries currently carrying the highlight material. -/
def highlightedCount (s : EngineState) : Nat :=
  (s.objects.filter fun o => o.highlighted).length

/-- List of object references in registry order. -/
def idsOf (objs : List PlacedObject) : List Nat :=
  objs.map PlacedObject.id

/-- Well-formedness of the engine state: references are distinct (distinct
JavaScript objects are distinct references) and an entry carries the highlight
material exactly when it is the stored highlightedObject.  This holds at page
load and is preserved by every operation, see reachable_WFState. -/
def WFState (s : EngineState) : Prop :=
  (idsOf s.objects).Nodup ∧
    ∀ o ∈ s.objects, (o.highlighted = true ↔ s.highlighted = some o.id)

instance (s : EngineState) : Decidable (WFState s) := by
  unfold WFState; infer_instance

/-- States the program can actually be in: from the initial state via loads
that register fresh fully constructed objects (fresh reference, original
materials), proximity ticks, and scene clears.  Freshness is with respect to
every live reference, namely the registry entries and the stored
highlightedObject. -/
inductive Reachable : EngineState → Prop where
  | init : Reachable initState
  | register {s : EngineState} (m : PlacedObject) : Reachable s →
      m.id ∉ idsOf s.objects → s.highlighted ≠ some m.id → m.highlighted = false →
      Reachable (registerObject m s)
  | tick {s : EngineState} (V : Vec3) : Reachable s →
      Reachable (checkObjectProximity s V).1
  | clear {s : EngineState} : Reachable s → Reachable (clearScene s).1

/-- Keep everything about an object except its current material. -/
def forgetAppearance (o : PlacedObject) : PlacedObject :=
  { o with highlighted := false }

/- Concrete fixtures used by witnesses and the clearScene counterexample. -/

/-- A mirror (interactive, has a description) placed at the origin. -/
def mirrorProbe : PlacedObject :=
  { id := 0, type := "mirror", pos := { x := 0, y := 0, z := 0 },
    highlighted := false, content := "" }

/-- A telephone (interactive) at distance 1 from the origin, like the mirror
probe when viewed from exOrigin. -/
def phoneProbe : PlacedObject :=
  { id := 1, type := "telephone", pos := { x := 0, y := 1, z := 0 },
    highlighted := false, content := "" }

/-- A coffee table: on the interactive allow-list but absent from
objectDescriptions. -/
def coffeeProbe : PlacedObject :=
  { id := 2, type := "coffee_table", pos := { x := 1, y := 0, z := 0 },
    highlighted := false, content := "" }

/-- A couch: rendered but not on the interactive allow-list, placed at
distance 1/10 of the origin. -/
def couchProbe : PlacedObject :=
  { id := 3, type := "couch", pos := { x := 1 / 10, y := 0, z := 0 },
    highlighted := false, content := "" }

/-- A garden story sphere at distance 1 of the origin. -/
def sphereProbe : PlacedObject :=
  { id := 4, type := "story_sphere", pos := { x := 1, y := 0, z := 0 },
    highlighted := false, content := "a story" }

/-- A second garden story sphere, also at distance 1 of the origin. -/
def sphereProbe2 : PlacedObject :=
  { id := 5, type := "story_sphere", pos := { x := 0, y := 0, z := 1 },
    highlighted := false, content := "another story" }

/-- Viewpoint at the origin. -/
def exOrigin : Vec3 := { x := 0, y := 0, z := 0 }

/-- Viewpoint at distance 1 of the origin. -/
def exNear : Vec3 := { x := 1, y := 0, z := 0 }

/-- Viewpoint far outside the interaction radius of every probe. -/
def exFar : Vec3 := { x := 10, y := 0, z := 0 }

/-- Viewpoint equidistant from the mirror probe and the telephone probe. -/
def exMid : Vec3 := { x := 1 / 2, y := 1 / 2, z := 0 }

/-- Registry state holding only the mirror probe. -/
def exMirrorState : EngineState :=
  { objects := [mirrorProbe], highlighted := none,
    overlayVisible := false, overlayText := "" }

/-- State reached by registering the mirror and ticking close to it: the
mirror is highlighted. -/
def exHighlightState : EngineState :=
  (checkObjectProximity (registerObject mirrorProbe initState) exNear).1

/-- Garden registry holding only the first sphere probe. -/
def exSphereState : EngineState :=
  { objects := [sphereProbe], highlighted := none, overlayVisible := false, overlayText := "" }

/-- Registry holding the mirror and the telephone: viewed from exMid, an exact
distance tie between two interactive objects. -/
def exTieState : EngineState :=
  { objects := [mirrorProbe, phoneProbe], highlighted := none,
    overlayVisible := false, overlayText := "" }

/-- Registry holding only the coffee table: interactive but without an entry
in objectDescriptions. -/
def exCoffeeState : EngineState :=
  { objects := [coffeeProbe], highlighted := none,
    overlayVisible := false, overlayText := "" }

/-- Registry holding only the couch: rendered but not interactive. -/
def exCouchState : EngineState :=
  { objects := [couchProbe], highlighted := none,
    overlayVisible := false, overlayText := "" }

/-- Garden registry with two spheres at distance 1 of the origin. -/
def exGardenTieState : EngineState :=
  { objects := [sphereProbe, sphereProbe2], highlighted := none,
    overlayVisible := false, overlayText := "" }

/-- The mirror probe carrying the highlight material. -/
def mirrorLit : PlacedObject :=
  { id := 0, type := "mirror", pos := { x := 0, y := 0, z := 0 },
    highlighted := true, content := "" }

/-- The state after ticking exMirrorState next to the mirror. -/
def exS1 : EngineState :=
  { objects := [mirrorLit], highlighted := some 0,
    overlayVisible := true, overlayText := descriptionFor "mirror" }

/-- The state after then ticking far from the mirror: materials restored,
overlay hidden. -/
def exS2 : EngineState :=
  { objects := [mirrorProbe], highlighted := none,
    overlayVisible := false, overlayText := descriptionFor "mirror" }

/-! ## Basic facts about material swaps -/

theorem appUpd_id (i : Nat) (b : Bool) (o : PlacedObject) : (appUpd i b o).id = o.id := by
  unfold appUpd; split <;> rfl

theorem appUpd_pos (i : Nat) (b : Bool) (o : PlacedObject) : (appUpd i b o).pos = o.pos := by
  unfold appUpd; split <;> rfl

theorem appUpd_type (i : Nat) (b : Bool) (o : PlacedObject) : (appUpd i b o).type = o.type := by
  unfold appUpd; split <;> rfl

theorem forgetAppearance_appUpd (i : Nat) (b : Bool) (o : PlacedObject) :
    forgetAppearance (appUpd i b o) = forgetAppearance o := by
  unfold forgetAppearance appUpd; split <;> rfl

theorem inRange_appUpd (V : Vec3) (i : Nat) (b : Bool) (o : PlacedObject) :
    inRange V (appUpd i b o) ↔ inRange V o := by
  unfold inRange; rw [appUpd_pos]

theorem isInteractive_appUpd (i : Nat) (b : Bool) (o : PlacedObject) :
    isInteractive (appUpd i b o) = isInteractive o := by
  unfold isInteractive; rw [appUpd_type]

theorem setAppearance_forget (objs : List PlacedObject) (i : Nat) (b : Bool) :
    (setAppearance objs i b).map forgetAppearance = objs.map forgetAppearance := by
  unfold setAppearance
  rw [List.map_map]
  exact List.map_congr_left fun o _ => forgetAppearance_appUpd i b o

theorem idsOf_setAppearance (objs : List PlacedObject) (i : Nat) (b : Bool) :
    idsOf (setAppearance objs i b) = idsOf objs := by
  unfold idsOf setAppearance
  rw [List.map_map]
  exact List.map_congr_left fun o _ => appUpd_id i b o

theorem interactiveObjects_setAppearance (objs : List PlacedObject) (i : Nat) (b : Bool) :
    interactiveObjects (setAppearance objs i b) = setAppearance (interactiveObjects objs) i b := by
  unfold interactiveObjects setAppearance
  induction objs with
  | nil => rfl
  | cons o t ih =>
      rw [List.map_cons, List.filter_cons, List.filter_cons, isInteractive_appUpd]
      cases h : isInteractive o with
      | false => simpa using ih
      | true => simpa using ih

/-! ## The forEach scan: characterization of the selected object -/

theorem scanStep_none_def (V : Vec3) (o : PlacedObject) :
    scanStep V none o = if inRange V o then some (o, distSq V o.pos) else none := rfl

theorem scanStep_some_def (V : Vec3) (c : PlacedObject) (cd : ℚ) (o : PlacedObject) :
    scanStep V (some (c, cd)) o =
      if inRange V o ∧ distSq V o.pos < cd then some (o, distSq V o.pos)
      else some (c, cd) := rfl

theorem scanClosest_append_singleton (V : Vec3) (l : List PlacedObject) (o : PlacedObject) :
    scanClosest V (l ++ [o]) = scanStep V (scanClosest V l) o := by
  unfold scanClosest
  rw [List.foldl_append]
  rfl

/-- The scan yields null exactly when no candidate is strictly in range. -/
theorem scanClosest_eq_none_iff (V : Vec3) (l : List PlacedObject) :
    scanClosest V l = none ↔ ∀ o ∈ l, ¬ inRange V o := by
  induction l using List.reverseRecOn with
  | nil => simp [scanClosest]
  | append_singleton t o ih =>
      rw [scanClosest_append_singleton]
      constructor
      · intro h
        rcases hs : scanClosest V t with _ | ⟨c, cd⟩
        · rw [hs, scanStep_none_def] at h
          by_cases hr : inRange V o
          · rw [if_pos hr] at h
            exact absurd h (Option.some_ne_none _)
          · intro e he
            rcases List.mem_append.mp he with he | he
            · exact (ih.mp hs) e he
            · rw [List.mem_singleton.mp he]
              exact hr
        · rw [hs, scanStep_some_def] at h
          split at h <;> exact absurd h (Option.some_ne_none _)
      · intro h
        have ht : scanClosest V t = none :=
          ih.mpr fun e he => h e (List.mem_append.mpr (Or.inl he))
        have ho : ¬ inRange V o := h o (List.mem_append.mpr (Or.inr (List.mem_singleton.mpr rfl)))
        rw [ht, scanStep_none_def, if_neg ho]

/-- What the scan returns when it returns something: a strictly in-range
candidate together with its distance, minimal among all strictly in-range
candidates. -/
theorem scanClosest_eq_some (V : Vec3) (l : List PlacedObject) (c : PlacedObject) (cd : ℚ)
    (h : scanClosest V l = some (c, cd)) :
    c ∈ l ∧ cd = distSq V c.pos ∧ inRange V c ∧
      ∀ o ∈ l, inRange V o → cd ≤ distSq V o.pos := by
  induction l using List.reverseRecOn generalizing c cd with
  | nil => simp [scanClosest] at h
  | append_singleton t o ih =>
      rw [scanClosest_append_singleton] at h
      rcases hs : scanClosest V t with _ | ⟨a, ad⟩
      · rw [hs, scanStep_none_def] at h
        by_cases hr : inRange V o
        · rw [if_pos hr] at h
          rcases Prod.mk.injEq .. ▸ Option.some.inj h with ⟨rfl, rfl⟩
          have hnone := (scanClosest_eq_none_iff V t).mp hs
          refine ⟨List.mem_append.mpr (Or.inr (List.mem_singleton.mpr rfl)), rfl, hr, ?_⟩
          intro e he hre
          rcases List.mem_append.mp he with he | he
          · exact absurd hre (hnone e he)
          · rw [List.mem_singleton.mp he]
        · rw [if_neg hr] at h
          exact absurd h Option.noConfusion
      · rw [hs, scanStep_some_def] at h
        rcases ih a ad hs with ⟨hamem, haeq, har, hamin⟩
        by_cases hcond : inRange V o ∧ distSq V o.pos < ad
        · rw [if_pos hcond] at h
          rcases Prod.mk.injEq .. ▸ Option.some.inj h with ⟨rfl, rfl⟩
          refine ⟨List.mem_append.mpr (Or.inr (List.mem_singleton.mpr rfl)), rfl, hcond.1, ?_⟩
          intro e he hre
          rcases List.mem_append.mp he with he | he
          · exact le_of_lt (lt_of_lt_of_le hcond.2 (hamin e he hre))
          · rw [List.mem_singleton.mp he]
        · rw [if_neg hcond] at h
          rcases Prod.mk.injEq .. ▸ Option.some.inj h with ⟨rfl, rfl⟩
          refine ⟨List.mem_append.mpr (Or.inl hamem), haeq, har, ?_⟩
          intro e he hre
          rcases List.mem_append.mp he with he | he
          · exact hamin e he hre
          · rw [List.mem_singleton.mp he] at hre ⊢
            exact le_of_not_lt fun hlt => hcond ⟨hre, hlt⟩

/-- Once the scan holds a candidate at distance d, later candidates that are
not strictly closer never replace it. -/
theorem foldl_scanStep_frozen (V : Vec3) (c : PlacedObject) (d : ℚ) :
    ∀ l : List PlacedObject, (∀ e ∈ l, inRange V e → d ≤ distSq V e.pos) →
      l.foldl (scanStep V) (some (c, d)) = some (c, d) := by
  intro l
  induction l with
  | nil => intro _; rfl
  | cons e t ih =>
      intro h
      rw [List.foldl_cons, scanStep_some_def]
      rw [if_neg fun hc => absurd hc.2 (not_lt.mpr (h e (List.mem_cons_self e t) hc.1))]
      exact ih fun x hx => h x (List.mem_cons_of_mem e hx)

/-- First-wins tie-breaking: a strictly in-range candidate that is strictly
closer than every in-range candidate before it and at least as close as every
in-range candidate after it is the one the scan returns. -/
theorem scanClosest_first (V : Vec3) (o : PlacedObject) (l1 l2 : List PlacedObject)
    (hr : inRange V o)
    (hbefore : ∀ e ∈ l1, inRange V e → distSq V o.pos < distSq V e.pos)
    (hafter : ∀ e ∈ l2, inRange V e → distSq V o.pos ≤ distSq V e.pos) :
    scanClosest V (l1 ++ o :: l2) = some (o, distSq V o.pos) := by
  have hsplit : l1 ++ o :: l2 = (l1 ++ [o]) ++ l2 := by simp
  rw [hsplit]
  unfold scanClosest
  rw [List.foldl_append]
  have hfirst : (l1 ++ [o]).foldl (scanStep V) none = some (o, distSq V o.pos) := by
    rw [List.foldl_append]
    rcases hs : l1.foldl (scanStep V) none with _ | ⟨a, ad⟩
    · simp only [List.foldl_cons, List.foldl_nil]
      rw [scanStep_none_def, if_pos hr]
    · have hsome := scanClosest_eq_some V l1 a ad hs
      simp only [List.foldl_cons, List.foldl_nil]
      rw [scanStep_some_def]
      rw [if_pos ⟨hr, hsome.2.1 ▸ hbefore a hsome.1 hsome.2.2.1⟩]
  rw [hfirst]
  exact foldl_scanStep_frozen V o (distSq V o.pos) l2 hafter

/-- Swapping a material changes neither the branch decisions of the scan nor
the identity of what it returns: the scan over the updated registry returns
the updated winner. -/
theorem foldl_scanStep_setAppearance (V : Vec3) (i : Nat) (b : Bool) :
    ∀ (l : List PlacedObject) (acc : Option (PlacedObject × ℚ)),
      (l.map (appUpd i b)).foldl (scanStep V) (acc.map fun p => (appUpd i b p.1, p.2)) =
        (l.foldl (scanStep V) acc).map fun p => (appUpd i b p.1, p.2) := by
  intro l
  induction l with
  | nil => intro acc; rfl
  | cons o t ih =>
      intro acc
      rw [List.map_cons, List.foldl_cons, List.foldl_cons, ← ih]
      congr 1
      rcases acc with _ | ⟨c, cd⟩
      · rw [Option.map_none', scanStep_none_def, scanStep_none_def]
        by_cases hr : inRange V o
        · rw [if_pos hr, if_pos ((inRange_appUpd V i b o).mpr hr), appUpd_pos, Option.map_some']
        · rw [if_neg hr, if_neg fun hc => hr ((inRange_appUpd V i b o).mp hc), Option.map_none']
      · rw [Option.map_some', scanStep_some_def, scanStep_some_def]
        by_cases hc : inRange V o ∧ distSq V o.pos < cd
        · rw [if_pos hc, if_pos ⟨(inRange_appUpd V i b o).mpr hc.1, (appUpd_pos i b o).symm ▸ hc.2⟩,
            appUpd_pos, Option.map_some']
        · rw [if_neg hc, if_neg fun hx =>
            hc ⟨(inRange_appUpd V i b o).mp hx.1, (appUpd_pos i b o) ▸ hx.2⟩, Option.map_some']

theorem scanClosest_setAppearance (V : Vec3) (l : List PlacedObject) (i : Nat) (b : Bool) :
    scanClosest V (setAppearance l i b) =
      (scanClosest V l).map fun p => (appUpd i b p.1, p.2) := by
  unfold scanClosest setAppearance
  have := foldl_scanStep_setAppearance V i b l none
  simpa using this

/-- The reference of the object selected by checkObjectProximity does not
depend on current materials. -/
theorem selectedObject_setAppearance (objs : List PlacedObject) (V : Vec3) (i : Nat) (b : Bool) :
    (selectedObject (setAppearance objs i b) V).map PlacedObject.id =
      (selectedObject objs V).map PlacedObject.id := by
  unfold selectedObject
  rw [interactiveObjects_setAppearance, scanClosest_setAppearance]
  rcases scanClosest V (interactiveObjects objs) with _ | ⟨c, cd⟩
  · rfl
  · simp [appUpd_id]

/-- The reference of the sphere selected by checkProximity does not depend on
current materials. -/
theorem selectedSphere_setAppearance (objs : List PlacedObject) (V : Vec3) (i : Nat) (b : Bool) :
    (selectedSphere (setAppearance objs i b) V).map PlacedObject.id =
      (selectedSphere objs V).map PlacedObject.id := by
  unfold selectedSphere
  rw [scanClosest_setAppearance]
  rcases scanClosest V objs with _ | ⟨c, cd⟩
  · rfl
  · simp [appUpd_id]

/-! ## The edge-triggered transition -/

/-- After the transition, the stored highlightedObject is exactly the scan
result, whether or not a transition fired. -/
theorem applyTransition_highlighted (s : EngineState) (c : Option PlacedObject)
    (t : PlacedObject → String) :
    (applyTransition s c t).1.highlighted = c.map PlacedObject.id := by
  unfold applyTransition
  split
  · next h => exact h.symm
  · rfl

/-- When the scan result is the already highlighted object, the transition is
skipped altogether: no state change, no effect. -/
theorem applyTransition_skip (s : EngineState) (c : Option PlacedObject)
    (t : PlacedObject → String) (h : c.map PlacedObject.id = s.highlighted) :
    applyTransition s c t = (s, []) := by
  unfold applyTransition
  rw [if_pos h]

theorem leaveStep_objects_forget (s : EngineState) :
    ((leaveStep s).1.objects).map forgetAppearance = s.objects.map forgetAppearance := by
  unfold leaveStep
  rcases s.highlighted with _ | h
  · rfl
  · exact setAppearance_forget s.objects h false

theorem enterStep_objects_forget (s : EngineState) (c : Option PlacedObject)
    (t : PlacedObject → String) :
    ((enterStep s c t).1.objects).map forgetAppearance = s.objects.map forgetAppearance := by
  unfold enterStep
  rcases c with _ | o
  · rfl
  · exact setAppearance_forget s.objects o.id true

/-- A transition only swaps materials: ids, type tags, positions, contents,
membership and order of the registry are untouched. -/
theorem applyTransition_objects_forget (s : EngineState) (c : Option PlacedObject)
    (t : PlacedObject → String) :
    ((applyTransition s c t).1.objects).map forgetAppearance =
      s.objects.map forgetAppearance := by
  unfold applyTransition
  split
  · rfl
  · calc ((enterStep (leaveStep s).1 c t).1.objects).map forgetAppearance
        = ((leaveStep s).1.objects).map forgetAppearance :=
          enterStep_objects_forget (leaveStep s).1 c t
      _ = s.objects.map forgetAppearance := leaveStep_objects_forget s

/-- What checkObjectProximity would select is unchanged by a transition, for
any viewpoint: selection reads only positions and type tags. -/
theorem applyTransition_selectedObject (s : EngineState) (c : Option PlacedObject)
    (t : PlacedObject → String) (W : Vec3) :
    (selectedObject (applyTransition s c t).1.objects W).map PlacedObject.id =
      (selectedObject s.objects W).map PlacedObject.id := by
  unfold applyTransition
  split
  · rfl
  · unfold enterStep leaveStep
    rcases s.highlighted with _ | h <;> rcases c with _ | o <;>
      simp only [selectedObject_setAppearance]

/-- What checkProximity would select is unchanged by a transition, for any
viewpoint. -/
theorem applyTransition_selectedSphere (s : EngineState) (c : Option PlacedObject)
    (t : PlacedObject → String) (W : Vec3) :
    (selectedSphere (applyTransition s c t).1.objects W).map PlacedObject.id =
      (selectedSphere s.objects W).map PlacedObject.id := by
  unfold applyTransition
  split
  · rfl
  · unfold enterStep leaveStep
    rcases s.highlighted with _ | h <;> rcases c with _ | o <;>
      simp only [selectedSphere_setAppearance]

/-- A transition that fires with a selected object emits its enter effect. -/
theorem applyTransition_enter_mem (s : EngineState) (c : Option PlacedObject)
    (t : PlacedObject → String) (o : PlacedObject)
    (hne : ¬ c.map PlacedObject.id = s.highlighted) (hc : c = some o) :
    Effect.applyHighlight o.id ∈ (applyTransition s c t).2 := by
  subst hc
  unfold applyTransition
  rw [if_neg hne]
  unfold enterStep
  simp

/-- A transition that fires while an object is highlighted emits its leave
effect. -/
theorem applyTransition_leave_mem (s : EngineState) (c : Option PlacedObject)
    (t : PlacedObject → String) (h : Nat)
    (hne : ¬ c.map PlacedObject.id = s.highlighted) (hh : s.highlighted = some h) :
    Effect.restoreMaterials h ∈ (applyTransition s c t).2 := by
  unfold applyTransition
  rw [if_neg hne]
  unfold leaveStep
  rw [hh]
  simp

/-- A transition that fires with a selected object shows the overlay with that
object's text. -/
theorem applyTransition_enter_overlay (s : EngineState) (c : Option PlacedObject)
    (t : PlacedObject → String) (o : PlacedObject)
    (hne : ¬ c.map PlacedObject.id = s.highlighted) (hc : c = some o) :
    (applyTransition s c t).1.overlayVisible = true ∧
      (applyTransition s c t).1.overlayText = t o ∧
      Effect.showOverlay (t o) ∈ (applyTransition s c t).2 := by
  subst hc
  unfold applyTransition
  rw [if_neg hne]
  unfold enterStep
  simp

/-! ## Preservation of well-formedness -/

theorem leaveStep_none (s : EngineState) (h : s.highlighted = none) :
    leaveStep s = (s, []) := by
  unfold leaveStep; rw [h]

theorem leaveStep_some (s : EngineState) (h0 : Nat) (h : s.highlighted = some h0) :
    leaveStep s =
      ({ s with objects := setAppearance s.objects h0 false, overlayVisible := false },
       [Effect.restoreMaterials h0, Effect.hideOverlay]) := by
  unfold leaveStep; rw [h]

theorem enterStep_none (s : EngineState) (t : PlacedObject → String) :
    enterStep s none t = (s, []) := rfl

theorem enterStep_some (s : EngineState) (o : PlacedObject) (t : PlacedObject → String) :
    enterStep s (some o) t =
      ({ s with objects := setAppearance s.objects o.id true,
                overlayVisible := true, overlayText := t o },
       [Effect.applyHighlight o.id, Effect.showOverlay (t o)]) := rfl

theorem applyTransition_fire (s : EngineState) (c : Option PlacedObject)
    (t : PlacedObject → String) (hne : ¬ c.map PlacedObject.id = s.highlighted) :
    applyTransition s c t =
      ({ (enterStep (leaveStep s).1 c t).1 with highlighted := c.map PlacedObject.id },
        (leaveStep s).2 ++ (enterStep (leaveStep s).1 c t).2) := by
  unfold applyTransition
  rw [if_neg hne]

theorem applyTransition_none_some (s : EngineState) (o : PlacedObject)
    (t : PlacedObject → String) (hh : s.highlighted = none) :
    applyTransition s (some o) t =
      ({ s with objects := setAppearance s.objects o.id true,
                highlighted := some o.id, overlayVisible := true, overlayText := t o },
       [Effect.applyHighlight o.id, Effect.showOverlay (t o)]) := by
  unfold applyTransition
  rw [hh, if_neg (by simp)]
  simp only [leaveStep_none s hh, enterStep_some]
  simp

theorem applyTransition_some_none (s : EngineState) (h0 : Nat)
    (t : PlacedObject → String) (hh : s.highlighted = some h0) :
    applyTransition s none t =
      ({ s with objects := setAppearance s.objects h0 false,
                highlighted := none, overlayVisible := false },
       [Effect.restoreMaterials h0, Effect.hideOverlay]) := by
  unfold applyTransition
  rw [hh, if_neg (by simp)]
  simp only [leaveStep_some s h0 hh, enterStep_none]
  simp

theorem applyTransition_some_some (s : EngineState) (h0 : Nat) (o : PlacedObject)
    (t : PlacedObject → String) (hh : s.highlighted = some h0) (hne : o.id ≠ h0) :
    applyTransition s (some o) t =
      ({ s with objects := setAppearance (setAppearance s.objects h0 false) o.id true,
                highlighted := some o.id, overlayVisible := true, overlayText := t o },
       [Effect.restoreMaterials h0, Effect.hideOverlay,
        Effect.applyHighlight o.id, Effect.showOverlay (t o)]) := by
  unfold applyTransition
  rw [hh, if_neg (by simp [hne])]
  simp only [leaveStep_some s h0 hh, enterStep_some]
  simp

/-- The transition preserves well-formedness: distinct references stay
distinct, and afterwards exactly the stored highlightedObject carries the
highlight material. -/
theorem WFState_applyTransition (s : EngineState) (c : Option PlacedObject)
    (t : PlacedObject → String) (hWF : WFState s) :
    WFState (applyTransition s c t).1 := by
  rcases hWF with ⟨hnd, hiff⟩
  by_cases hg : c.map PlacedObject.id = s.highlighted
  · rw [applyTransition_skip s c t hg]
    exact ⟨hnd, hiff⟩
  · rcases hh : s.highlighted with _ | h0 <;> rcases c with _ | o
    · exact absurd (by simp [hh]) hg
    · rw [applyTransition_none_some s o t hh]
      constructor
      · rw [idsOf_setAppearance]; exact hnd
      · intro x hx
        rcases List.mem_map.mp hx with ⟨y, hy, rfl⟩
        by_cases hid : y.id = o.id
        · simp [appUpd, hid]
        · have hyf : ¬ y.highlighted = true := fun hcontra => by
            have h2 := (hiff y hy).mp hcontra
            rw [hh] at h2
            exact Option.noConfusion h2
          simp [appUpd, hid, hyf, Ne.symm hid]
    · rw [applyTransition_some_none s h0 t hh]
      constructor
      · rw [idsOf_setAppearance]; exact hnd
      · intro x hx
        rcases List.mem_map.mp hx with ⟨y, hy, rfl⟩
        by_cases hid : y.id = h0
        · simp [appUpd, hid]
        · have hyf : ¬ y.highlighted = true := fun hcontra => by
            have h2 := (hiff y hy).mp hcontra
            rw [hh] at h2
            exact hid (Option.some.inj h2).symm
          simp [appUpd, hid, hyf]
    · have hoh : o.id ≠ h0 := fun hx => hg (by rw [hh, Option.map_some', hx])
      rw [applyTransition_some_some s h0 o t hh hoh]
      constructor
      · rw [idsOf_setAppearance, idsOf_setAppearance]; exact hnd
      · intro x hx
        rcases List.mem_map.mp hx with ⟨z, hz, rfl⟩
        rcases List.mem_map.mp hz with ⟨y, hy, rfl⟩
        by_cases hid : y.id = o.id
        · have hidh : y.id ≠ h0 := hid ▸ hoh
          simp [appUpd, hid, hidh, hoh]
        · by_cases hidh : y.id = h0
          · simp [appUpd, hid, hidh, hoh, Ne.symm hoh]
          · have hyf : ¬ y.highlighted = true := fun hcontra => by
              have h2 := (hiff y hy).mp hcontra
              rw [hh] at h2
              exact hidh (Option.some.inj h2).symm
            simp [appUpd, hid, hidh, hyf, Ne.symm hid]

theorem length_le_one_of_nodup_const {α : Type _} (l : List α) (a : α)
    (hnd : l.Nodup) (hall : ∀ x ∈ l, x = a) : l.length ≤ 1 := by
  cases l with
  | nil => simp
  | cons x t =>
      cases t with
      | nil => simp
      | cons y u =>
          exfalso
          have hx : x = a := hall x (List.mem_cons_self x (y :: u))
          have hy : y = a := hall y (List.mem_cons_of_mem x (List.mem_cons_self y u))
          rw [List.nodup_cons] at hnd
          refine hnd.1 ?_
          rw [hx.trans hy.symm]
          exact List.mem_cons_self y u

/-- In a well-formed state, at most one registry entry carries the highlight
material, and any entry that does is the stored highlightedObject. -/
theorem WFState_count (s : EngineState) (hWF : WFState s) :
    highlightedCount s ≤ 1 ∧
      ∀ o ∈ s.objects, o.highlighted = true → s.highlighted = some o.id := by
  rcases hWF with ⟨hnd, hiff⟩
  refine ⟨?_, fun o ho hh => (hiff o ho).mp hh⟩
  rcases hh : s.highlighted with _ | h0
  · have hnil : s.objects.filter (fun o => o.highlighted) = [] := by
      rw [List.filter_eq_nil_iff]
      intro o ho hcontra
      have h2 := (hiff o ho).mp (by simpa using hcontra)
      rw [hh] at h2
      exact Option.noConfusion h2
    rw [highlightedCount, hnil]
    simp
  · have hsub : (s.objects.filter fun o => o.highlighted).Sublist s.objects :=
      List.filter_sublist s.objects
    have hndf : (idsOf (s.objects.filter fun o => o.highlighted)).Nodup :=
      List.Nodup.sublist (List.Sublist.map PlacedObject.id hsub) hnd
    have hall : ∀ x ∈ idsOf (s.objects.filter fun o => o.highlighted), x = h0 := by
      intro x hx
      rcases List.mem_map.mp hx with ⟨o, ho, rfl⟩
      rcases List.mem_filter.mp ho with ⟨hom, hohl⟩
      have h2 := (hiff o hom).mp (by simpa using hohl)
      rw [hh] at h2
      exact (Option.some.inj h2).symm
    have hlen := length_le_one_of_nodup_const _ h0 hndf hall
    rw [idsOf, List.length_map] at hlen
    exact hlen

theorem WFState_initState : WFState initState := by
  constructor <;> simp [initState, idsOf]

theorem WFState_registerObject (s : EngineState) (m : PlacedObject) (hWF : WFState s)
    (hfresh : m.id ∉ idsOf s.objects) (hnh : s.highlighted ≠ some m.id)
    (hmf : m.highlighted = false) : WFState (registerObject m s) := by
  rcases hWF with ⟨hnd, hiff⟩
  constructor
  · show (idsOf (s.objects ++ [m])).Nodup
    rw [idsOf, List.map_append, List.nodup_append]
    refine ⟨hnd, List.nodup_singleton _, ?_⟩
    intro a ha hb
    rw [List.map_singleton, List.mem_singleton] at hb
    subst hb
    exact hfresh ha
  · intro o ho
    rcases List.mem_append.mp ho with ho | ho
    · exact hiff o ho
    · rw [List.mem_singleton.mp ho]
      constructor
      · intro hcontra
        rw [hmf] at hcontra
        exact absurd hcontra Bool.false_ne_true
      · intro hcontra
        exact absurd hcontra hnh
  
theorem WFState_clearScene (s : EngineState) : WFState (clearScene s).1 := by
  constructor
  · simp [clearScene, idsOf]
  · intro o ho
    simp [clearScene] at ho

/-- Every state the program can reach is well-formed. -/
theorem reachable_WFState (s : EngineState) (h : Reachable s) : WFState s := by
  induction h with
  | init => exact WFState_initState
  | register m _ hfresh hnh hmf ih => exact WFState_registerObject _ m ih hfresh hnh hmf
  | tick V _ ih => exact WFState_applyTransition _ _ _ ih
  | clear _ ih => exact WFState_clearScene _

/-! ## Claims -/

/-- C8: A failed asset load never registers an object.  The error callback of
loader.load only logs to the console: the engine state, and in particular the
registry, is exactly unchanged, so no partially constructed object ever
becomes visible to the tick. -/
theorem claim_C8_failed_load_registry_unchanged (s : EngineState) (msg : String) :
    loadObjectCallback s (LoadResult.error msg) = s ∧
    (loadObjectCallback s (LoadResult.error msg)).objects = s.objects :=
  ⟨rfl, rfl⟩

/-- C4 (amended): clearScene empties the registry, detaching every entity,
and emits no side effect at all: no appearance restore and no overlay hide.
It does not reset the stored highlightedObject (nor the overlay): the stale
reference is left in place, contrary to the claim that the highlight state is
reset to none. -/
theorem claim_C4_clear_empties_without_leave (s : EngineState) :
    (clearScene s).1.objects = [] ∧ (clearScene s).2 = [] ∧
    (clearScene s).1.highlighted = s.highlighted ∧
    (clearScene s).1.overlayVisible = s.overlayVisible ∧
    (clearScene s).1.overlayText = s.overlayText :=
  ⟨rfl, rfl, rfl, rfl, rfl⟩

theorem exHighlightState_highlighted : exHighlightState.highlighted = some 0 := by
  norm_num [exHighlightState, checkObjectProximity, applyTransition, selectedObject,
    interactiveObjects, scanClosest, scanStep, inRange, isInteractive, interactiveTypes,
    registerObject, initState, mirrorProbe, exNear, distSq, INTERACTION_DISTANCE,
    leaveStep, enterStep, List.filter_cons, List.filter_nil]
  all_goals simp

/-- C4 (counterexample): register the mirror, tick next to it so that it is
highlighted, then clearScene.  The registry is emptied but the stored
highlighted-object state is still the mirror, not none, refuting the claim
that clear() resets the highlight state to no-highlight. -/
theorem claim_C4_counterexample :
    exHighlightState.highlighted = some mirrorProbe.id ∧
    ¬ (clearScene exHighlightState).1.highlighted = none ∧
    (clearScene exHighlightState).1.objects = [] := by
  refine ⟨exHighlightState_highlighted, ?_, rfl⟩
  show ¬ exHighlightState.highlighted = none
  rw [exHighlightState_highlighted]
  simp

/-- C10: A proximity tick mutates only appearances, the overlay and the
stored highlight reference: in both viewer variants the registry after a tick
has the same entries in the same order with the same id, type tag, position
and content, differing at most in the highlighted flag. -/
theorem claim_C10_tick_touches_only_appearance (s : EngineState) (V : Vec3) :
    ((checkObjectProximity s V).1.objects).map forgetAppearance =
      s.objects.map forgetAppearance ∧
    ((checkProximity s V).1.objects).map forgetAppearance =
      s.objects.map forgetAppearance :=
  ⟨applyTransition_objects_forget s _ _, applyTransition_objects_forget s _ _⟩

/-- C3: A second tick with the same viewpoint and the same registry is a
no-op: the state is returned unchanged and no enter or leave effect is
emitted, in both viewer variants.  The transition is edge-triggered on the
identity of the nearest in-range object. -/
theorem claim_C3_tick_idempotent (s : EngineState) (V : Vec3) :
    checkObjectProximity (checkObjectProximity s V).1 V = ((checkObjectProximity s V).1, []) ∧
    checkProximity (checkProximity s V).1 V = ((checkProximity s V).1, []) := by
  constructor
  · exact applyTransition_skip _ _ _
      ((applyTransition_selectedObject s _ _ V).trans
        (applyTransition_highlighted s _ _).symm)
  · exact applyTransition_skip _ _ _
      ((applyTransition_selectedSphere s _ _ V).trans
        (applyTransition_highlighted s _ _).symm)

/-- C1: After a tick the stored highlight is none exactly when no candidate
lies strictly within the interaction radius (an object at distance exactly
INTERACTION_DISTANCE is out of range), and otherwise it is the reference of a
strictly in-range candidate at minimal distance.  In the first-person viewer
the candidates are the interactive objects; in the garden every sphere is a
candidate. -/
theorem claim_C1_highlight_is_nearest :
    (∀ (s : EngineState) (V : Vec3),
      ((checkObjectProximity s V).1.highlighted = none ↔
        ∀ o ∈ interactiveObjects s.objects, ¬ inRange V o) ∧
      ∀ i : Nat, (checkObjectProximity s V).1.highlighted = some i →
        ∃ o, o ∈ interactiveObjects s.objects ∧ o.id = i ∧ inRange V o ∧
          ∀ e ∈ interactiveObjects s.objects, inRange V e →
            distSq V o.pos ≤ distSq V e.pos) ∧
    (∀ (s : EngineState) (V : Vec3),
      ((checkProximity s V).1.highlighted = none ↔ ∀ o ∈ s.objects, ¬ inRange V o) ∧
      ∀ i : Nat, (checkProximity s V).1.highlighted = some i →
        ∃ o, o ∈ s.objects ∧ o.id = i ∧ inRange V o ∧
          ∀ e ∈ s.objects, inRange V e → distSq V o.pos ≤ distSq V e.pos) := by
  constructor
  · intro s V
    have hh : (checkObjectProximity s V).1.highlighted =
        (selectedObject s.objects V).map PlacedObject.id :=
      applyTransition_highlighted s _ _
    constructor
    · rw [hh]
      unfold selectedObject
      constructor
      · intro h2
        rcases hs : scanClosest V (interactiveObjects s.objects) with _ | ⟨c, cd⟩
        · exact (scanClosest_eq_none_iff V _).mp hs
        · rw [hs] at h2
          exact absurd h2 (by simp)
      · intro h2
        rw [(scanClosest_eq_none_iff V _).mpr h2]
        rfl
    · intro i hi
      rw [hh] at hi
      unfold selectedObject at hi
      rcases hs : scanClosest V (interactiveObjects s.objects) with _ | ⟨c, cd⟩
      · rw [hs] at hi
        exact absurd hi (by simp)
      · rw [hs] at hi
        rcases scanClosest_eq_some V _ c cd hs with ⟨hmem, hcd, hr, hmin⟩
        refine ⟨c, hmem, by simpa using hi, hr, ?_⟩
        intro e he hre
        have h3 := hmin e he hre
        rw [hcd] at h3
        exact h3
  · intro s V
    have hh : (checkProximity s V).1.highlighted =
        (selectedSphere s.objects V).map PlacedObject.id :=
      applyTransition_highlighted s _ _
    constructor
    · rw [hh]
      unfold selectedSphere
      constructor
      · intro h2
        rcases hs : scanClosest V s.objects with _ | ⟨c, cd⟩
        · exact (scanClosest_eq_none_iff V _).mp hs
        · rw [hs] at h2
          exact absurd h2 (by simp)
      · intro h2
        rw [(scanClosest_eq_none_iff V _).mpr h2]
        rfl
    · intro i hi
      rw [hh] at hi
      unfold selectedSphere at hi
      rcases hs : scanClosest V s.objects with _ | ⟨c, cd⟩
      · rw [hs] at hi
        exact absurd hi (by simp)
      · rw [hs] at hi
        rcases scanClosest_eq_some V _ c cd hs with ⟨hmem, hcd, hr, hmin⟩
        refine ⟨c, hmem, by simpa using hi, hr, ?_⟩
        intro e he hre
        have h3 := hmin e he hre
        rw [hcd] at h3
        exact h3

/-- C1 (witness): with the mirror registered at distance 1 of the viewpoint,
the tick highlights reference 0, and the characterization instantiates to an
explicit nearest in-range object. -/
theorem claim_C1_witness :
    ∃ o, o ∈ interactiveObjects exMirrorState.objects ∧ o.id = 0 ∧ inRange exNear o ∧
      ∀ e ∈ interactiveObjects exMirrorState.objects, inRange exNear e →
        distSq exNear o.pos ≤ distSq exNear e.pos :=
  (claim_C1_highlight_is_nearest.1 exMirrorState exNear).2 0 (by
    norm_num [exMirrorState, checkObjectProximity, applyTransition, selectedObject,
      interactiveObjects, scanClosest, scanStep, inRange, isInteractive, interactiveTypes,
      mirrorProbe, exNear, distSq, INTERACTION_DISTANCE,
      leaveStep, enterStep, List.filter_cons, List.filter_nil]
    all_goals simp)

/-- C2: From any well-formed state (references distinct, the highlight
material carried exactly by the stored highlightedObject, as in every state
the program reaches, see reachable_WFState), after a tick at most one registry
entry is highlighted, and any highlighted entry is the single stored
highlighted identity — in both viewer variants. -/
theorem claim_C2_at_most_one_highlighted (s : EngineState) (V : Vec3) (hWF : WFState s) :
    highlightedCount (checkObjectProximity s V).1 ≤ 1 ∧
    (∀ o ∈ (checkObjectProximity s V).1.objects, o.highlighted = true →
        (checkObjectProximity s V).1.highlighted = some o.id) ∧
    highlightedCount (checkProximity s V).1 ≤ 1 ∧
    (∀ o ∈ (checkProximity s V).1.objects, o.highlighted = true →
        (checkProximity s V).1.highlighted = some o.id) := by
  have h1 : WFState (checkObjectProximity s V).1 :=
    WFState_applyTransition s _ _ hWF
  have h2 : WFState (checkProximity s V).1 :=
    WFState_applyTransition s _ _ hWF
  have hc1 := WFState_count _ h1
  have hc2 := WFState_count _ h2
  exact ⟨hc1.1, hc1.2, hc2.1, hc2.2⟩

/-- C2 (witness): the mirror registry with no highlight is well-formed, and
after the tick at most one entry is highlighted. -/
theorem claim_C2_witness :
    highlightedCount (checkObjectProximity exMirrorState exNear).1 ≤ 1 ∧
    (∀ o ∈ (checkObjectProximity exMirrorState exNear).1.objects, o.highlighted = true →
        (checkObjectProximity exMirrorState exNear).1.highlighted = some o.id) ∧
    highlightedCount (checkProximity exMirrorState exNear).1 ≤ 1 ∧
    (∀ o ∈ (checkProximity exMirrorState exNear).1.objects, o.highlighted = true →
        (checkProximity exMirrorState exNear).1.highlighted = some o.id) :=
  claim_C2_at_most_one_highlighted exMirrorState exNear (by decide)

theorem isInteractive_iff (o : PlacedObject) :
    isInteractive o = true ↔ o.type ∈ interactiveTypes := by
  unfold isInteractive
  exact List.elem_iff

theorem eq_of_mem_of_nodup_ids (objs : List PlacedObject) (hnd : (idsOf objs).Nodup)
    (a b : PlacedObject) (ha : a ∈ objs) (hb : b ∈ objs) (hid : a.id = b.id) : a = b := by
  unfold idsOf at hnd
  exact List.inj_on_of_nodup_map hnd ha hb hid

theorem selectedObject_mem_interactive (objs : List PlacedObject) (V : Vec3)
    (c : PlacedObject) (hc : selectedObject objs V = some c) :
    c ∈ interactiveObjects objs := by
  unfold selectedObject at hc
  rcases hs : scanClosest V (interactiveObjects objs) with _ | ⟨a, ad⟩
  · rw [hs] at hc
    exact absurd hc (by simp)
  · rw [hs] at hc
    simp only [Option.map_some'] at hc
    rw [← Option.some.inj hc]
    exact (scanClosest_eq_some V _ a ad hs).1

/-- C5: When the selected object's type tag has no entry in
objectDescriptions, the enter transition still shows the overlay, with the
empty text that assigning the undefined lookup result to textContent
produces; the tick, a total function, never throws. -/
theorem claim_C5_missing_description_overlay (s : EngineState) (V : Vec3) (o : PlacedObject)
    (hsel : selectedObject s.objects V = some o)
    (hnew : ¬ some o.id = s.highlighted)
    (hmiss : lookupDescription o.type = none) :
    (checkObjectProximity s V).1.overlayVisible = true ∧
    (checkObjectProximity s V).1.overlayText = "" ∧
    Effect.showOverlay "" ∈ (checkObjectProximity s V).2 := by
  have hne : ¬ (selectedObject s.objects V).map PlacedObject.id = s.highlighted := by
    rw [hsel]
    simpa using hnew
  have h3 := applyTransition_enter_overlay s (selectedObject s.objects V)
    (fun x => (lookupDescription x.type).getD "") o hne hsel
  have htext : ((fun x : PlacedObject => (lookupDescription x.type).getD "") o) = "" := by
    simp [hmiss]
  rw [htext] at h3
  exact h3

/-- C5 (witness): the coffee table is on the interactive allow-list but has no
entry in objectDescriptions; entering it shows the overlay with empty text. -/
theorem claim_C5_witness :
    (checkObjectProximity exCoffeeState exOrigin).1.overlayVisible = true ∧
    (checkObjectProximity exCoffeeState exOrigin).1.overlayText = "" ∧
    Effect.showOverlay "" ∈ (checkObjectProximity exCoffeeState exOrigin).2 :=
  claim_C5_missing_description_overlay exCoffeeState exOrigin coffeeProbe
    (by
      norm_num [exCoffeeState, selectedObject, interactiveObjects, scanClosest, scanStep,
        inRange, isInteractive, interactiveTypes, coffeeProbe, exOrigin, distSq,
        INTERACTION_DISTANCE, List.filter_cons, List.filter_nil])
    (by decide)
    (by decide)

/-- C6: When an interactive candidate is strictly in range, strictly closer
than every in-range candidate registered before it and at least as close as
every one registered after it — in particular in an exact distance tie with a
later candidate — the tick highlights it: first registered wins.  The tick is
a pure function of the registry and viewpoint, so the choice is reproducible.
Holds in both viewer variants. -/
theorem claim_C6_tie_first_registered :
    (∀ (s : EngineState) (V : Vec3) (o1 o2 : PlacedObject) (l1 l2 : List PlacedObject),
      interactiveObjects s.objects = l1 ++ o1 :: l2 →
      o2 ∈ l2 → distSq V o2.pos = distSq V o1.pos → inRange V o1 →
      (∀ e ∈ l1, inRange V e → distSq V o1.pos < distSq V e.pos) →
      (∀ e ∈ l2, inRange V e → distSq V o1.pos ≤ distSq V e.pos) →
      (checkObjectProximity s V).1.highlighted = some o1.id) ∧
    (∀ (s : EngineState) (V : Vec3) (o1 o2 : PlacedObject) (l1 l2 : List PlacedObject),
      s.objects = l1 ++ o1 :: l2 →
      o2 ∈ l2 → distSq V o2.pos = distSq V o1.pos → inRange V o1 →
      (∀ e ∈ l1, inRange V e → distSq V o1.pos < distSq V e.pos) →
      (∀ e ∈ l2, inRange V e → distSq V o1.pos ≤ distSq V e.pos) →
      (checkProximity s V).1.highlighted = some o1.id) := by
  constructor
  · intro s V o1 o2 l1 l2 hdecomp _ _ hr hbefore hafter
    have hsel : selectedObject s.objects V = some o1 := by
      unfold selectedObject
      rw [hdecomp, scanClosest_first V o1 l1 l2 hr hbefore hafter]
      rfl
    have hh : (checkObjectProximity s V).1.highlighted =
        (selectedObject s.objects V).map PlacedObject.id :=
      applyTransition_highlighted s _ _
    rw [hh, hsel]
    rfl
  · intro s V o1 o2 l1 l2 hdecomp _ _ hr hbefore hafter
    have hsel : selectedSphere s.objects V = some o1 := by
      unfold selectedSphere
      rw [hdecomp, scanClosest_first V o1 l1 l2 hr hbefore hafter]
      rfl
    have hh : (checkProximity s V).1.highlighted =
        (selectedSphere s.objects V).map PlacedObject.id :=
      applyTransition_highlighted s _ _
    rw [hh, hsel]
    rfl

/-- C6 (witness): mirror and telephone both at squared distance 1/2 of the
viewpoint, mirror registered first: the mirror is highlighted; likewise for
two garden spheres both at distance 1, first sphere wins. -/
theorem claim_C6_witness :
    (checkObjectProximity exTieState exMid).1.highlighted = some mirrorProbe.id ∧
    (checkProximity exGardenTieState exOrigin).1.highlighted = some sphereProbe.id := by
  constructor
  · refine claim_C6_tie_first_registered.1 exTieState exMid mirrorProbe phoneProbe []
      [phoneProbe] ?_ (List.mem_singleton.mpr rfl) ?_ ?_ ?_ ?_
    · show interactiveObjects [mirrorProbe, phoneProbe] = [mirrorProbe, phoneProbe]
      norm_num [interactiveObjects, isInteractive, interactiveTypes, mirrorProbe, phoneProbe,
        List.filter_cons, List.filter_nil]
    · norm_num [distSq, mirrorProbe, phoneProbe, exMid]
    · norm_num [inRange, distSq, mirrorProbe, exMid, INTERACTION_DISTANCE]
    · intro e he
      exact absurd he (List.not_mem_nil e)
    · intro e he
      rw [List.mem_singleton.mp he]
      intro _
      norm_num [distSq, mirrorProbe, phoneProbe, exMid]
  · refine claim_C6_tie_first_registered.2 exGardenTieState exOrigin sphereProbe sphereProbe2 []
      [sphereProbe2] rfl (List.mem_singleton.mpr rfl) ?_ ?_ ?_ ?_
    · norm_num [distSq, sphereProbe, sphereProbe2, exOrigin]
    · norm_num [inRange, distSq, sphereProbe, exOrigin, INTERACTION_DISTANCE]
    · intro e he
      exact absurd he (List.not_mem_nil e)
    · intro e he
      rw [List.mem_singleton.mp he]
      intro _
      norm_num [distSq, sphereProbe, sphereProbe2, exOrigin]

/-- C7: An object whose type tag is not on the interactive allow-list is
never the selected object and never becomes the stored highlight of a tick,
for every viewpoint, however close it is: it is filtered out before the scan. -/
theorem claim_C7_non_interactive_never_highlighted (s : EngineState) (V : Vec3)
    (o : PlacedObject) (ho : o ∈ s.objects) (hni : o.type ∉ interactiveTypes)
    (hnd : (idsOf s.objects).Nodup) :
    ¬ selectedObject s.objects V = some o ∧
    ¬ (checkObjectProximity s V).1.highlighted = some o.id := by
  constructor
  · intro hcontra
    have hmem := selectedObject_mem_interactive s.objects V o hcontra
    rcases List.mem_filter.mp hmem with ⟨_, hint⟩
    exact hni ((isInteractive_iff o).mp hint)
  · intro hcontra
    have hh : (checkObjectProximity s V).1.highlighted =
        (selectedObject s.objects V).map PlacedObject.id :=
      applyTransition_highlighted s _ _
    rw [hh] at hcontra
    rcases Option.map_eq_some'.mp hcontra with ⟨c, hc, hcid⟩
    have hcmem := selectedObject_mem_interactive s.objects V c hc
    rcases List.mem_filter.mp hcmem with ⟨hcobj, hcint⟩
    have hco : c = o := eq_of_mem_of_nodup_ids s.objects hnd c o hcobj ho hcid
    rw [hco] at hcint
    exact hni ((isInteractive_iff o).mp hcint)

/-- C7 (witness): the couch at distance 1/10 of the viewpoint — nearest and
well within range — is neither selected nor highlighted. -/
theorem claim_C7_witness :
    ¬ selectedObject exCouchState.objects exOrigin = some couchProbe ∧
    ¬ (checkObjectProximity exCouchState exOrigin).1.highlighted = some couchProbe.id :=
  claim_C7_non_interactive_never_highlighted exCouchState exOrigin couchProbe
    (List.mem_singleton.mpr rfl) (by decide) (by decide)

/-- C9: Re-entering an object after leaving produces a fresh enter and leave
pair, in both viewer variants: if a tick selects the object with reference i
while it is not highlighted, its enter effect fires; if a later tick selects
something else, its leave effect fires; and if a further tick selects it
again, the enter effect fires again — focus is not sticky across a leave. -/
theorem claim_C9_reenter_fires_fresh_pair :
    (∀ (s : EngineState) (V1 V2 V3 : Vec3) (i : Nat),
      (selectedObject s.objects V1).map PlacedObject.id = some i →
      ¬ s.highlighted = some i →
      ¬ (selectedObject (checkObjectProximity s V1).1.objects V2).map PlacedObject.id = some i →
      (selectedObject (checkObjectProximity (checkObjectProximity s V1).1 V2).1.objects
          V3).map PlacedObject.id = some i →
      Effect.applyHighlight i ∈ (checkObjectProximity s V1).2 ∧
      Effect.restoreMaterials i ∈ (checkObjectProximity (checkObjectProximity s V1).1 V2).2 ∧
      Effect.applyHighlight i ∈
        (checkObjectProximity
          (checkObjectProximity (checkObjectProximity s V1).1 V2).1 V3).2) ∧
    (∀ (s : EngineState) (V1 V2 V3 : Vec3) (i : Nat),
      (selectedSphere s.objects V1).map PlacedObject.id = some i →
      ¬ s.highlighted = some i →
      ¬ (selectedSphere (checkProximity s V1).1.objects V2).map PlacedObject.id = some i →
      (selectedSphere (checkProximity (checkProximity s V1).1 V2).1.objects
          V3).map PlacedObject.id = some i →
      Effect.applyHighlight i ∈ (checkProximity s V1).2 ∧
      Effect.restoreMaterials i ∈ (checkProximity (checkProximity s V1).1 V2).2 ∧
      Effect.applyHighlight i ∈
        (checkProximity (checkProximity (checkProximity s V1).1 V2).1 V3).2) := by
  constructor
  · intro s V1 V2 V3 i h1 h2 h3 h4
    have hg1 : ¬ (selectedObject s.objects V1).map PlacedObject.id = s.highlighted := by
      rw [h1]
      exact fun hx => h2 hx.symm
    rcases Option.map_eq_some'.mp h1 with ⟨o1, ho1, ho1id⟩
    have hhl1 : (checkObjectProximity s V1).1.highlighted = some i := by
      have hh : (checkObjectProximity s V1).1.highlighted =
          (selectedObject s.objects V1).map PlacedObject.id :=
        applyTransition_highlighted s _ _
      rw [hh, h1]
    have hg2 : ¬ (selectedObject (checkObjectProximity s V1).1.objects V2).map
        PlacedObject.id = (checkObjectProximity s V1).1.highlighted := by
      rw [hhl1]
      exact h3
    have hhl2 : (checkObjectProximity (checkObjectProximity s V1).1 V2).1.highlighted =
        (selectedObject (checkObjectProximity s V1).1.objects V2).map PlacedObject.id :=
      applyTransition_highlighted _ _ _
    have hg3 : ¬ (selectedObject (checkObjectProximity (checkObjectProximity s V1).1 V2).1.objects
        V3).map PlacedObject.id =
        (checkObjectProximity (checkObjectProximity s V1).1 V2).1.highlighted := by
      rw [h4, hhl2]
      exact fun hx => h3 hx.symm
    rcases Option.map_eq_some'.mp h4 with ⟨o3, ho3, ho3id⟩
    refine ⟨?_, ?_, ?_⟩
    · have h5 := applyTransition_enter_mem s (selectedObject s.objects V1)
        (fun x => (lookupDescription x.type).getD "") o1 hg1 ho1
      exact ho1id ▸ h5
    · exact applyTransition_leave_mem _ _ _ i hg2 hhl1
    · have h5 := applyTransition_enter_mem _ _
        (fun x => (lookupDescription x.type).getD "") o3 hg3 ho3
      exact ho3id ▸ h5
  · intro s V1 V2 V3 i h1 h2 h3 h4
    have hg1 : ¬ (selectedSphere s.objects V1).map PlacedObject.id = s.highlighted := by
      rw [h1]
      exact fun hx => h2 hx.symm
    rcases Option.map_eq_some'.mp h1 with ⟨o1, ho1, ho1id⟩
    have hhl1 : (checkProximity s V1).1.highlighted = some i := by
      have hh : (checkProximity s V1).1.highlighted =
          (selectedSphere s.objects V1).map PlacedObject.id :=
        applyTransition_highlighted s _ _
      rw [hh, h1]
    have hg2 : ¬ (selectedSphere (checkProximity s V1).1.objects V2).map
        PlacedObject.id = (checkProximity s V1).1.highlighted := by
      rw [hhl1]
      exact h3
    have hhl2 : (checkProximity (checkProximity s V1).1 V2).1.highlighted =
        (selectedSphere (checkProximity s V1).1.objects V2).map PlacedObject.id :=
      applyTransition_highlighted _ _ _
    have hg3 : ¬ (selectedSphere (checkProximity (checkProximity s V1).1 V2).1.objects
        V3).map PlacedObject.id =
        (checkProximity (checkProximity s V1).1 V2).1.highlighted := by
      rw [h4, hhl2]
      exact fun hx => h3 hx.symm
    rcases Option.map_eq_some'.mp h4 with ⟨o3, ho3, ho3id⟩
    refine ⟨?_, ?_, ?_⟩
    · have h5 := applyTransition_enter_mem s (selectedSphere s.objects V1)
        (fun x : PlacedObject => x.content) o1 hg1 ho1
      exact ho1id ▸ h5
    · exact applyTransition_leave_mem _ _ _ i hg2 hhl1
    · have h5 := applyTransition_enter_mem _ _
        (fun x : PlacedObject => x.content) o3 hg3 ho3
      exact ho3id ▸ h5

theorem exTick1_eq : checkObjectProximity exMirrorState exNear =
    (exS1, [Effect.applyHighlight 0, Effect.showOverlay (descriptionFor "mirror")]) := by
  norm_num [exMirrorState, checkObjectProximity, applyTransition, selectedObject,
    interactiveObjects, scanClosest, scanStep, inRange, isInteractive, interactiveTypes,
    mirrorProbe, mirrorLit, exS1, exNear, distSq, INTERACTION_DISTANCE, leaveStep, enterStep,
    setAppearance, appUpd, lookupDescription, descriptionKeys,
    List.filter_cons, List.filter_nil]
  all_goals simp

theorem exTick2_eq : checkObjectProximity exS1 exFar =
    (exS2, [Effect.restoreMaterials 0, Effect.hideOverlay]) := by
  norm_num [exS1, exS2, checkObjectProximity, applyTransition, selectedObject,
    interactiveObjects, scanClosest, scanStep, inRange, isInteractive, interactiveTypes,
    mirrorProbe, mirrorLit, exFar, distSq, INTERACTION_DISTANCE, leaveStep, enterStep,
    setAppearance, appUpd, lookupDescription, descriptionKeys,
    List.filter_cons, List.filter_nil]
  all_goals simp

/-- C9 (witness): walk next to the mirror (enter fires), walk far away (leave
fires), walk back (enter fires again). -/
theorem claim_C9_witness :
    Effect.applyHighlight 0 ∈ (checkObjectProximity exMirrorState exNear).2 ∧
    Effect.restoreMaterials 0 ∈
      (checkObjectProximity (checkObjectProximity exMirrorState exNear).1 exFar).2 ∧
    Effect.applyHighlight 0 ∈
      (checkObjectProximity
        (checkObjectProximity (checkObjectProximity exMirrorState exNear).1 exFar).1 exNear).2 :=
  claim_C9_reenter_fires_fresh_pair.1 exMirrorState exNear exFar exNear 0
    (by
      norm_num [exMirrorState, selectedObject, interactiveObjects, scanClosest, scanStep,
        inRange, isInteractive, interactiveTypes, mirrorProbe, exNear, distSq,
        INTERACTION_DISTANCE, List.filter_cons, List.filter_nil])
    (by decide)
    (by
      rw [exTick1_eq]
      norm_num [exS1, selectedObject, interactiveObjects, scanClosest, scanStep,
        inRange, isInteractive, interactiveTypes, mirrorLit, exFar, distSq,
        INTERACTION_DISTANCE, List.filter_cons, List.filter_nil]
      all_goals simp)
    (by
      rw [exTick1_eq]
      norm_num [exTick2_eq, exS2, selectedObject, interactiveObjects, scanClosest, scanStep,
        inRange, isInteractive, interactiveTypes, mirrorProbe, exNear, distSq,
        INTERACTION_DISTANCE, List.filter_cons, List.filter_nil])
